import Mathlib

/-!
Shallow embedding of the amethyst fragments under verification:
the controller-event to input-event conversion from
src/amethyst_input/src/controller.rs, and the audio Output playback API
from src/amethyst_audio/src/output.rs.

Machine values are modelled as follows: u32 and u16 become Nat (the code
performs no arithmetic on them), f32 values become an abstract 32-bit
pattern wrapper F32 (the code only copies them), and byte buffers become
List Nat.
-/

set_option autoImplicit false

/-- An f32 value, modelled as its bit pattern; the embedded code never
computes with floats, it only copies them. -/
structure F32 where
  bits : Nat
deriving DecidableEq, Repr

/-! ## Input fragment: src/amethyst_input/src/controller.rs -/

/-- Controller axes matching the SDL controller model. -/
inductive ControllerAxis where
  | LeftX
  | LeftY
  | RightX
  | RightY
  | LeftTrigger
  | RightTrigger
deriving DecidableEq, Repr

/-- Controller buttons matching the SDL controller model. -/
inductive ControllerButton where
  | A
  | B
  | X
  | Y
  | DPadDown
  | DPadLeft
  | DPadRight
  | DPadUp
  | LeftShoulder
  | RightShoulder
  | LeftStick
  | RightStick
  | Back
  | Start
  | Guide
deriving DecidableEq, Repr

/-- Controller events generated by the SDL events system. -/
inductive ControllerEvent where
  | ControllerAxisMoved (which : Nat) (axis : ControllerAxis) (value : F32)
  | ControllerButtonPressed (which : Nat) (button : ControllerButton)
  | ControllerButtonReleased (which : Nat) (button : ControllerButton)
  | ControllerDisconnected (which : Nat)
  | ControllerConnected (which : Nat)
deriving DecidableEq, Repr

/-- Modelled from the spec: the engine-wide input-event union
(src/amethyst_input/src/event.rs is not among the provided sources). The
spec calls it a broader union, so its non-controller variants are
collapsed into the abstract constructor OtherInput; the five controller
variants and their fields are exactly those constructed by the
conversion in controller.rs. -/
inductive InputEvent where
  | ControllerAxisMoved (which : Nat) (axis : ControllerAxis) (value : F32)
  | ControllerButtonPressed (which : Nat) (button : ControllerButton)
  | ControllerButtonReleased (which : Nat) (button : ControllerButton)
  | ControllerConnected (which : Nat)
  | ControllerDisconnected (which : Nat)
  | OtherInput (tag : Nat)
deriving DecidableEq, Repr

/-- The From impl for InputEvent in controller.rs: field-by-field copy of
each controller event variant into the matching input event variant. -/
def InputEvent.fromController : ControllerEvent → InputEvent
  | .ControllerAxisMoved which axis value => .ControllerAxisMoved which axis value
  | .ControllerButtonPressed which button => .ControllerButtonPressed which button
  | .ControllerButtonReleased which button => .ControllerButtonReleased which button
  | .ControllerConnected which => .ControllerConnected which
  | .ControllerDisconnected which => .ControllerDisconnected which

/-- Variant index of a controller event. -/
def ControllerEvent.tag : ControllerEvent → Nat
  | .ControllerAxisMoved .. => 0
  | .ControllerButtonPressed .. => 1
  | .ControllerButtonReleased .. => 2
  | .ControllerConnected .. => 3
  | .ControllerDisconnected .. => 4

/-- The joystick instance id carried by a controller event. -/
def ControllerEvent.which : ControllerEvent → Nat
  | .ControllerAxisMoved w _ _ => w
  | .ControllerButtonPressed w _ => w
  | .ControllerButtonReleased w _ => w
  | .ControllerConnected w => w
  | .ControllerDisconnected w => w

/-- The axis payload of a controller event, when present. -/
def ControllerEvent.axis? : ControllerEvent → Option ControllerAxis
  | .ControllerAxisMoved _ a _ => some a
  | _ => none

/-- The button payload of a controller event, when present. -/
def ControllerEvent.button? : ControllerEvent → Option ControllerButton
  | .ControllerButtonPressed _ b => some b
  | .ControllerButtonReleased _ b => some b
  | _ => none

/-- The axis value payload of a controller event, when present. -/
def ControllerEvent.value? : ControllerEvent → Option F32
  | .ControllerAxisMoved _ _ v => some v
  | _ => none

/-- Variant index of an input event, mirroring ControllerEvent.tag on the
controller variants; none on non-controller input events. -/
def InputEvent.controllerTag? : InputEvent → Option Nat
  | .ControllerAxisMoved .. => some 0
  | .ControllerButtonPressed .. => some 1
  | .ControllerButtonReleased .. => some 2
  | .ControllerConnected .. => some 3
  | .ControllerDisconnected .. => some 4
  | .OtherInput .. => none

/-- The joystick instance id carried by a controller input event. -/
def InputEvent.which? : InputEvent → Option Nat
  | .ControllerAxisMoved w _ _ => some w
  | .ControllerButtonPressed w _ => some w
  | .ControllerButtonReleased w _ => some w
  | .ControllerConnected w => some w
  | .ControllerDisconnected w => some w
  | .OtherInput _ => none

/-- The axis payload of an input event, when present. -/
def InputEvent.axis? : InputEvent → Option ControllerAxis
  | .ControllerAxisMoved _ a _ => some a
  | _ => none

/-- The button payload of an input event, when present. -/
def InputEvent.button? : InputEvent → Option ControllerButton
  | .ControllerButtonPressed _ b => some b
  | .ControllerButtonReleased _ b => some b
  | _ => none

/-- The axis value payload of an input event, when present. -/
def InputEvent.value? : InputEvent → Option F32
  | .ControllerAxisMoved _ _ v => some v
  | _ => none

/-! ## Audio fragment: src/amethyst_audio/src/output.rs -/

/-- The DecoderError of the audio crate (a unit struct; its definition
is outside the provided sources, the code only wraps it). -/
inductive DecoderError where
  | mk
deriving DecidableEq, Repr

/-- The PlayError of the external mixer library: sink creation on a lost
or missing device fails with NoDevice; the library can also report its
own decode failure. The embedded code never inspects it. -/
inductive PlayError where
  | NoDevice
  | DecoderFailure
deriving DecidableEq, Repr

/-- Audio playback error, from output.rs. -/
inductive OutputError where
  | DecoderError (e : DecoderError)
  | PlayError (e : PlayError)
deriving DecidableEq, Repr

/-- A playback source: an in-memory byte buffer holding an encoded
audio file. -/
structure Source where
  bytes : List Nat
deriving DecidableEq, Repr

/-- Handle to an output stream; abstract to the embedded code. -/
structure OutputStreamHandle where
  id : Nat
deriving DecidableEq, Repr

/-- An output stream; abstract to the embedded code. -/
structure OutputStream where
  id : Nat
deriving DecidableEq, Repr

/-- An audio output: a device name paired with a stream handle. -/
structure Output where
  name : String
  stream_handle : OutputStreamHandle
deriving DecidableEq, Repr

/-- Modelled from the spec: the observable behavior of the external
mixer behind the stream handle (sink.rs and the mixer library are
outside the provided sources). deviceOk says whether spawning a sink
succeeds; appendOk source k says whether the append that would be the
k-th entry of a sink queue succeeds in decoding the source. -/
structure AudioWorld where
  deviceOk : Bool
  appendOk : Source → Nat → Bool

/-- The state of a spawned sink: the enqueued (source, volume) pairs and
whether the sink has been detached. -/
structure Sink where
  queue : List (Source × F32)
  detached : Bool
deriving DecidableEq, Repr

/-- Modelled from the spec: Sink.append of the audio crate enqueues the
source at the given volume, failing with a DecoderError when the source
cannot be decoded. -/
def Sink.append (w : AudioWorld) (sink : Sink) (source : Source) (volume : F32) :
    Except DecoderError Sink :=
  if w.appendOk source sink.queue.length then
    Except.ok { sink with queue := sink.queue ++ [(source, volume)] }
  else
    Except.error DecoderError.mk

/-- Modelled from the spec: detaching releases the sink so playback
continues independently. -/
def Sink.detach (sink : Sink) : Sink :=
  { sink with detached := true }

/-- Output.try_spawn_sink: spawns a new sink, returning a PlayError when
the output device is missing. -/
def Output.try_spawn_sink (w : AudioWorld) (_o : Output) : Except PlayError Sink :=
  if w.deviceOk then
    Except.ok { queue := [], detached := false }
  else
    Except.error PlayError.NoDevice

/-- The for loop of try_play_n_times: append the source n times,
stopping at the first append error. Returns the sink state reached and
the error, if one occurred. -/
def Output.appendLoop (w : AudioWorld) (sink : Sink) (source : Source) (volume : F32) :
    Nat → Sink × Option DecoderError
  | 0 => (sink, none)
  | Nat.succ k =>
    match Sink.append w sink source volume with
    | Except.ok sink2 => Output.appendLoop w sink2 source volume k
    | Except.error e => (sink, some e)

instance {ε α : Type} [DecidableEq ε] [DecidableEq α] : DecidableEq (Except ε α) := fun a b =>
  match a, b with
  | Except.error x, Except.error y => decidable_of_iff (x = y) (by simp)
  | Except.error _, Except.ok _ => Decidable.isFalse (by simp)
  | Except.ok _, Except.error _ => Decidable.isFalse (by simp)
  | Except.ok x, Except.ok y => decidable_of_iff (x = y) (by simp)

/-- The outcome of a result-returning play call: the returned result
together with the final state of the sink it spawned (none when sink
creation itself failed). -/
structure PlayOutcome where
  result : Except OutputError Unit
  sink : Option Sink
deriving DecidableEq, Repr

/-- Output.try_play_n_times: spawn a sink (mapping failure into
OutputError.PlayError), append the source n times (mapping the first
failure into OutputError.DecoderError and aborting), then detach. -/
def Output.try_play_n_times (w : AudioWorld) (o : Output) (source : Source) (volume : F32)
    (n : Nat) : PlayOutcome :=
  match Output.try_spawn_sink w o with
  | Except.error e => { result := Except.error (OutputError.PlayError e), sink := none }
  | Except.ok sink =>
    match Output.appendLoop w sink source volume n with
    | (s, some e) => { result := Except.error (OutputError.DecoderError e), sink := some s }
    | (s, none) => { result := Except.ok (), sink := some (Sink.detach s) }

/-- Output.try_play_once: plays a sound once by delegating to
try_play_n_times with n = 1. -/
def Output.try_play_once (w : AudioWorld) (o : Output) (source : Source) (volume : F32) :
    PlayOutcome :=
  Output.try_play_n_times w o source volume 1

/-- The outcome of a silent play call: the unit value returned to the
caller and the errors written to the log. -/
structure SilentOutcome where
  returned : Unit
  log : List OutputError
deriving DecidableEq, Repr

/-- Output.play_n_times: delegates to try_play_n_times and swallows any
error into a log line. -/
def Output.play_n_times (w : AudioWorld) (o : Output) (source : Source) (volume : F32)
    (n : Nat) : SilentOutcome :=
  match (Output.try_play_n_times w o source volume n).result with
  | Except.error e => { returned := (), log := [e] }
  | Except.ok _ => { returned := (), log := [] }

/-- Output.play_once: plays a sound once by delegating to play_n_times
with n = 1. -/
def Output.play_once (w : AudioWorld) (o : Output) (source : Source) (volume : F32) :
    SilentOutcome :=
  Output.play_n_times w o source volume 1

/-- A StreamError of the external mixer library; abstract to the embedded
code. -/
structure StreamError where
  code : Nat
deriving DecidableEq, Repr

/-- An error returned when querying a device name fails; abstract to the
embedded code. -/
structure DeviceNameError where
  code : Nat
deriving DecidableEq, Repr

/-- An audio device, modelled by the two results the embedded code
queries from it: the outcome of OutputStream try_from_device on it and
the outcome of its name query. -/
structure Device where
  try_from_device : Except StreamError (OutputStream × OutputStreamHandle)
  name : Except DeviceNameError String

/-- init_output: builds (OutputStream, Output) from the default output
device, naming the output "default". The argument is the result of
OutputStream try_default, an external call. -/
def init_output (try_default : Except StreamError (OutputStream × OutputStreamHandle)) :
    Except StreamError (OutputStream × Output) :=
  match try_default with
  | Except.error e => Except.error e
  | Except.ok (stream, stream_handle) =>
    Except.ok (stream, { name := "default", stream_handle := stream_handle })

/-- init_output_from_device: builds (OutputStream, Output) from the
given device, naming the output after the device, or "Unknown device"
when the name query fails. -/
def init_output_from_device (device : Device) :
    Except StreamError (OutputStream × Output) :=
  match device.try_from_device with
  | Except.error e => Except.error e
  | Except.ok (stream, stream_handle) =>
    Except.ok (stream,
      { name := match device.name with
                | Except.ok n => n
                | Except.error _ => "Unknown device",
        stream_handle := stream_handle })

/-! ## Concrete instances used by witnesses and counterexamples -/

/-- A concrete output object. -/
def sampleOutput : Output :=
  { name := "default", stream_handle := { id := 0 } }

/-- A concrete source. -/
def sampleSource : Source :=
  { bytes := [82, 73, 70, 70] }

/-- A concrete volume. -/
def sampleVolume : F32 :=
  { bits := 1065353216 }

/-- A world with a working device whose appends always fail: every
source is malformed in it. -/
def worldMalformed : AudioWorld :=
  { deviceOk := true, appendOk := fun _ _ => false }

/-- A world with a working device whose appends always succeed: every
source is well formed in it. -/
def worldWellFormed : AudioWorld :=
  { deviceOk := true, appendOk := fun _ _ => true }

/-- A world with a missing device. -/
def worldNoDevice : AudioWorld :=
  { deviceOk := false, appendOk := fun _ _ => true }

/-- A world with a working device where appends succeed only while the
sink holds fewer than two entries. -/
def worldFailAtTwo : AudioWorld :=
  { deviceOk := true, appendOk := fun _ k => decide (k < 2) }

/-! ## Loop lemmas -/

/-- When every append that the loop will attempt succeeds, the loop
enqueues the source n times and reports no error. -/
theorem Output.appendLoop_ok (w : AudioWorld) (source : Source) (volume : F32) :
    ∀ (n : Nat) (t : Sink),
      (∀ k, k < n → w.appendOk source (t.queue.length + k) = true) →
      Output.appendLoop w t source volume n =
        ({ t with queue := t.queue ++ List.replicate n (source, volume) }, none)
  | 0, t, _ => by
    simp [Output.appendLoop]
  | Nat.succ m, t, h => by
    have h0 : w.appendOk source t.queue.length = true := by
      simpa using h 0 (Nat.succ_pos m)
    have step : ∀ k, k < m →
        w.appendOk source ((t.queue ++ [(source, volume)]).length + k) = true := by
      intro k hk
      have := h (k + 1) (Nat.succ_lt_succ hk)
      simpa [Nat.add_assoc, Nat.add_comm 1 k] using this
    have ih := Output.appendLoop_ok w source volume m
      { t with queue := t.queue ++ [(source, volume)] } step
    simp only [Output.appendLoop, Sink.append, h0, if_true]
    rw [ih]
    simp [List.replicate_succ, List.append_assoc]

/-- When the append at index i (counting from the state the loop starts
in) is the first to fail and the loop attempts it, the loop stops there:
exactly i entries are enqueued and the first error is reported. -/
theorem Output.appendLoop_fail (w : AudioWorld) (source : Source) (volume : F32) :
    ∀ (i n : Nat) (t : Sink), i < n →
      w.appendOk source (t.queue.length + i) = false →
      (∀ j, j < i → w.appendOk source (t.queue.length + j) = true) →
      Output.appendLoop w t source volume n =
        ({ t with queue := t.queue ++ List.replicate i (source, volume) },
          some DecoderError.mk)
  | 0, n, t, hi, hfail, _ => by
    obtain ⟨m, rfl⟩ : ∃ m, n = m + 1 := ⟨n - 1, by omega⟩
    have h0 : w.appendOk source t.queue.length = false := by simpa using hfail
    simp [Output.appendLoop, Sink.append, h0]
  | Nat.succ i, n, t, hi, hfail, hok => by
    obtain ⟨m, rfl⟩ : ∃ m, n = m + 1 := ⟨n - 1, by omega⟩
    have h0 : w.appendOk source t.queue.length = true := by
      simpa using hok 0 (Nat.succ_pos i)
    have hfail2 : w.appendOk source ((t.queue ++ [(source, volume)]).length + i) = false := by
      simpa [Nat.add_assoc, Nat.add_comm 1 i] using hfail
    have hok2 : ∀ j, j < i →
        w.appendOk source ((t.queue ++ [(source, volume)]).length + j) = true := by
      intro j hj
      have := hok (j + 1) (Nat.succ_lt_succ hj)
      simpa [Nat.add_assoc, Nat.add_comm 1 j] using this
    have ih := Output.appendLoop_fail w source volume i m
      { t with queue := t.queue ++ [(source, volume)] } (by omega) hfail2 hok2
    simp only [Output.appendLoop, Sink.append, h0, if_true]
    rw [ih]
    simp [List.replicate_succ, List.append_assoc]

/-! ## Claim theorems -/

/-- C1: the conversion from ControllerEvent to InputEvent is total,
maps each controller event variant to exactly one input event variant
(the one sharing its variant index), and copies the device identifier
which together with every payload field (axis, button, value)
unchanged. -/
theorem fromController_total_preserving (c : ControllerEvent) :
    (InputEvent.fromController c).controllerTag? = some c.tag ∧
    (InputEvent.fromController c).which? = some c.which ∧
    (InputEvent.fromController c).axis? = c.axis? ∧
    (InputEvent.fromController c).button? = c.button? ∧
    (InputEvent.fromController c).value? = c.value? := by
  cases c <;>
    simp [InputEvent.fromController, ControllerEvent.tag, ControllerEvent.which,
      ControllerEvent.axis?, ControllerEvent.button?, ControllerEvent.value?,
      InputEvent.controllerTag?, InputEvent.which?, InputEvent.axis?,
      InputEvent.button?, InputEvent.value?]

/-- C9: the conversion from ControllerEvent to InputEvent is injective:
controller events with equal images are equal, so the original event is
recoverable from its image. -/
theorem fromController_injective (c1 c2 : ControllerEvent)
    (h : InputEvent.fromController c1 = InputEvent.fromController c2) : c1 = c2 := by
  cases c1 <;> cases c2 <;> simp_all [InputEvent.fromController]

/-- Witness for C9 at a concrete pair of events. -/
theorem fromController_injective_witness :
    ControllerEvent.ControllerConnected 7 = ControllerEvent.ControllerConnected 7 :=
  fromController_injective (ControllerEvent.ControllerConnected 7)
    (ControllerEvent.ControllerConnected 7) rfl

/-- C5 (amended): provided sink creation succeeds, try_play_n_times with
n = 0 enqueues the source zero times and returns success. -/
theorem try_play_zero_succeeds (w : AudioWorld) (o : Output) (s : Source) (v : F32)
    (hdev : w.deviceOk = true) :
    Output.try_play_n_times w o s v 0 =
      { result := Except.ok (), sink := some { queue := [], detached := true } } := by
  simp [Output.try_play_n_times, Output.try_spawn_sink, hdev, Output.appendLoop, Sink.detach]

/-- Witness for C5 at a concrete world with a working device. -/
theorem try_play_zero_succeeds_witness :
    Output.try_play_n_times worldWellFormed sampleOutput sampleSource sampleVolume 0 =
      { result := Except.ok (), sink := some { queue := [], detached := true } } :=
  try_play_zero_succeeds worldWellFormed sampleOutput sampleSource sampleVolume rfl

/-- C5 counterexample: when the device is missing, try_play_n_times with
n = 0 returns a play error, not success. -/
theorem try_play_zero_claim_counterexample :
    (Output.try_play_n_times worldNoDevice sampleOutput sampleSource sampleVolume 0).result =
      Except.error (OutputError.PlayError PlayError.NoDevice) ∧
    (Output.try_play_n_times worldNoDevice sampleOutput sampleSource sampleVolume 0).result ≠
      Except.ok () :=
  ⟨rfl, by decide⟩

/-- C6: when the append at index i is the first to fail, try_play_n_times
reports that first failure as a decoder error and performs none of the
remaining repeats: exactly i entries were enqueued and the sink is not
detached. -/
theorem try_play_aborts_at_first_failure (w : AudioWorld) (o : Output) (s : Source)
    (v : F32) (n i : Nat) (hdev : w.deviceOk = true) (hi : i < n)
    (hfail : w.appendOk s i = false) (hok : ∀ j, j < i → w.appendOk s j = true) :
    Output.try_play_n_times w o s v n =
      { result := Except.error (OutputError.DecoderError DecoderError.mk),
        sink := some { queue := List.replicate i (s, v), detached := false } } := by
  have hrun := Output.appendLoop_fail w s v i n { queue := [], detached := false } hi
    (by simpa using hfail) (by simpa using hok)
  simp [Output.try_play_n_times, Output.try_spawn_sink, hdev, hrun]

/-- Witness for C6: appends succeed only below index two, so a call with
n = 5 stops after two enqueues. -/
theorem try_play_aborts_at_first_failure_witness :
    Output.try_play_n_times worldFailAtTwo sampleOutput sampleSource sampleVolume 5 =
      { result := Except.error (OutputError.DecoderError DecoderError.mk),
        sink := some { queue := List.replicate 2 (sampleSource, sampleVolume),
                       detached := false } } :=
  try_play_aborts_at_first_failure worldFailAtTwo sampleOutput sampleSource sampleVolume 5 2
    rfl (by decide) (by decide)
    (by intro j hj; simp only [worldFailAtTwo]; exact decide_eq_true hj)

/-- C7: every error the result-returning playback API returns belongs to
the single discriminated type OutputError and is one of exactly two
kinds: a decode failure or a device/stream playback failure. -/
theorem outputError_two_kinds (w : AudioWorld) (o : Output) (s : Source) (v : F32)
    (n : Nat) (e : OutputError)
    (_h : (Output.try_play_n_times w o s v n).result = Except.error e) :
    (∃ d, e = OutputError.DecoderError d) ∨ (∃ p, e = OutputError.PlayError p) := by
  cases e with
  | DecoderError d => exact Or.inl ⟨d, rfl⟩
  | PlayError p => exact Or.inr ⟨p, rfl⟩

/-- Witness for C7 at a concrete failing call. -/
theorem outputError_two_kinds_witness :
    (∃ d, OutputError.PlayError PlayError.NoDevice = OutputError.DecoderError d) ∨
    (∃ p, OutputError.PlayError PlayError.NoDevice = OutputError.PlayError p) :=
  outputError_two_kinds worldNoDevice sampleOutput sampleSource sampleVolume 0
    (OutputError.PlayError PlayError.NoDevice) rfl

/-- C8: try_play_once is exactly try_play_n_times with n = 1, and
play_once is exactly play_n_times with n = 1. -/
theorem play_once_delegates (w : AudioWorld) (o : Output) (s : Source) (v : F32) :
    Output.try_play_once w o s v = Output.try_play_n_times w o s v 1 ∧
    Output.play_once w o s v = Output.play_n_times w o s v 1 :=
  ⟨rfl, rfl⟩

/-- C2 (amended): provided sink creation succeeds, a source all of whose
appends fail (malformed) yields a decoder error whenever at least one
repeat is requested, and a source all of whose appends succeed (well
formed) yields success for every repeat count. -/
theorem try_play_decode_behavior (w : AudioWorld) (o : Output) (s : Source) (v : F32)
    (n : Nat) (hdev : w.deviceOk = true) :
    ((∀ k, w.appendOk s k = false) → 1 ≤ n →
      (Output.try_play_n_times w o s v n).result =
        Except.error (OutputError.DecoderError DecoderError.mk)) ∧
    ((∀ k, w.appendOk s k = true) →
      (Output.try_play_n_times w o s v n).result = Except.ok ()) := by
  constructor
  · intro hmal hn
    have hrun := Output.appendLoop_fail w s v 0 n { queue := [], detached := false }
      (by omega) (by simpa using hmal 0)
      (by intro j hj; exact absurd hj (Nat.not_lt_zero j))
    simp [Output.try_play_n_times, Output.try_spawn_sink, hdev, hrun]
  · intro hwf
    have hrun := Output.appendLoop_ok w s v n { queue := [], detached := false }
      (by intro k hk; simpa using hwf _)
    simp [Output.try_play_n_times, Output.try_spawn_sink, hdev, hrun]

/-- Witness for C2 at the malformed-source world with one repeat. -/
theorem try_play_decode_behavior_witness :
    ((∀ k, worldMalformed.appendOk sampleSource k = false) → 1 ≤ 1 →
      (Output.try_play_n_times worldMalformed sampleOutput sampleSource sampleVolume 1).result =
        Except.error (OutputError.DecoderError DecoderError.mk)) ∧
    ((∀ k, worldMalformed.appendOk sampleSource k = true) →
      (Output.try_play_n_times worldMalformed sampleOutput sampleSource sampleVolume 1).result =
        Except.ok ()) :=
  try_play_decode_behavior worldMalformed sampleOutput sampleSource sampleVolume 1 rfl

/-- C2 counterexample: in the world where every append fails (every
source malformed), a call with n = 0 returns success rather than a
decode error; and in the missing-device world a well-formed source
yields a play error rather than success. -/
theorem try_play_decode_claim_counterexample :
    (Output.try_play_n_times worldMalformed sampleOutput sampleSource sampleVolume 0).result =
      Except.ok () ∧
    (Output.try_play_n_times worldNoDevice sampleOutput sampleSource sampleVolume 1).result =
      Except.error (OutputError.PlayError PlayError.NoDevice) :=
  ⟨rfl, rfl⟩

/-- C3: try_play_n_times returns an error exactly when sink creation
fails or one of the n appends fails; on success the source was enqueued
exactly n times, at the given volume, on a sink that began empty and was
then detached. -/
theorem try_play_error_characterization (w : AudioWorld) (o : Output) (s : Source)
    (v : F32) (n : Nat) :
    ((∃ e, (Output.try_play_n_times w o s v n).result = Except.error e) ↔
      (w.deviceOk = false ∨ ∃ k, k < n ∧ w.appendOk s k = false)) ∧
    ((Output.try_play_n_times w o s v n).result = Except.ok () →
      (Output.try_play_n_times w o s v n).sink =
        some { queue := List.replicate n (s, v), detached := true }) := by
  by_cases hdev : w.deviceOk = true
  · by_cases hfail : ∃ k, k < n ∧ w.appendOk s k = false
    · obtain ⟨k, hkn, hkf⟩ := hfail
      have hq : ∃ j, w.appendOk s j = false := ⟨k, hkf⟩
      have hspec := Nat.find_spec hq
      have hlt : Nat.find hq < n := lt_of_le_of_lt (Nat.find_min' hq hkf) hkn
      have hmin : ∀ j, j < Nat.find hq → w.appendOk s j = true := by
        intro j hj
        have hne := Nat.find_min hq hj
        simpa using hne
      have hrun := Output.appendLoop_fail w s v (Nat.find hq) n
        { queue := [], detached := false } hlt (by simpa using hspec) (by simpa using hmin)
      constructor
      · constructor
        · intro _
          exact Or.inr ⟨Nat.find hq, hlt, hspec⟩
        · intro _
          refine ⟨OutputError.DecoderError DecoderError.mk, ?_⟩
          simp [Output.try_play_n_times, Output.try_spawn_sink, hdev, hrun]
      · intro hok
        simp [Output.try_play_n_times, Output.try_spawn_sink, hdev, hrun] at hok
    · have hall : ∀ k, k < n → w.appendOk s k = true := by
        intro k hk
        cases hb : w.appendOk s k with
        | false => exact absurd ⟨k, hk, hb⟩ hfail
        | true => rfl
      have hrun := Output.appendLoop_ok w s v n { queue := [], detached := false }
        (by simpa using hall)
      constructor
      · constructor
        · rintro ⟨e, he⟩
          simp [Output.try_play_n_times, Output.try_spawn_sink, hdev, hrun] at he
        · rintro (h1 | ⟨k, hk, hkf⟩)
          · rw [hdev] at h1
            cases h1
          · have := hall k hk
            rw [this] at hkf
            cases hkf
      · intro _
        simp [Output.try_play_n_times, Output.try_spawn_sink, hdev, hrun, Sink.detach]
  · have hdev2 : w.deviceOk = false := by simpa using hdev
    constructor
    · constructor
      · intro _
        exact Or.inl hdev2
      · intro _
        refine ⟨OutputError.PlayError PlayError.NoDevice, ?_⟩
        simp [Output.try_play_n_times, Output.try_spawn_sink, hdev2]
    · intro hok
      simp [Output.try_play_n_times, Output.try_spawn_sink, hdev2] at hok

/-- Witness for C3 at a concrete well-formed call with two repeats. -/
theorem try_play_error_characterization_witness :
    ((∃ e, (Output.try_play_n_times worldWellFormed sampleOutput sampleSource sampleVolume
        2).result = Except.error e) ↔
      (worldWellFormed.deviceOk = false ∨
        ∃ k, k < 2 ∧ worldWellFormed.appendOk sampleSource k = false)) ∧
    ((Output.try_play_n_times worldWellFormed sampleOutput sampleSource sampleVolume
        2).result = Except.ok () →
      (Output.try_play_n_times worldWellFormed sampleOutput sampleSource sampleVolume
        2).sink =
        some { queue := List.replicate 2 (sampleSource, sampleVolume), detached := true }) :=
  try_play_error_characterization worldWellFormed sampleOutput sampleSource sampleVolume 2

/-- C4: the silent playback APIs return unit to the caller in every
case; when the underlying try_play_n_times fails the failure goes only
to the log, and when it succeeds nothing is logged. -/
theorem play_n_times_silent (w : AudioWorld) (o : Output) (s : Source) (v : F32)
    (n : Nat) :
    (Output.play_n_times w o s v n).returned = () ∧
    (Output.play_once w o s v).returned = () ∧
    (∀ e, (Output.try_play_n_times w o s v n).result = Except.error e →
      Output.play_n_times w o s v n = { returned := (), log := [e] }) ∧
    ((Output.try_play_n_times w o s v n).result = Except.ok () →
      Output.play_n_times w o s v n = { returned := (), log := [] }) := by
  refine ⟨rfl, rfl, ?_, ?_⟩
  · intro e he
    simp [Output.play_n_times, he]
  · intro he
    simp [Output.play_n_times, he]

/-- Witness for C4 at a concrete failing call. -/
theorem play_n_times_silent_witness :
    (Output.play_n_times worldNoDevice sampleOutput sampleSource sampleVolume 1).returned =
      () ∧
    (Output.play_once worldNoDevice sampleOutput sampleSource sampleVolume).returned = () ∧
    (∀ e, (Output.try_play_n_times worldNoDevice sampleOutput sampleSource sampleVolume
        1).result = Except.error e →
      Output.play_n_times worldNoDevice sampleOutput sampleSource sampleVolume 1 =
        { returned := (), log := [e] }) ∧
    ((Output.try_play_n_times worldNoDevice sampleOutput sampleSource sampleVolume
        1).result = Except.ok () →
      Output.play_n_times worldNoDevice sampleOutput sampleSource sampleVolume 1 =
        { returned := (), log := [] }) :=
  play_n_times_silent worldNoDevice sampleOutput sampleSource sampleVolume 1

/-- The result of an OutputStream try_default call that succeeded. -/
def sampleTryDefault : Except StreamError (OutputStream × OutputStreamHandle) :=
  Except.ok ({ id := 0 }, { id := 2 })

/-- A device whose name query fails. -/
def sampleDeviceNameless : Device :=
  { try_from_device := Except.ok ({ id := 0 }, { id := 1 }),
    name := Except.error { code := 0 } }

/-- C10: on success init_output names the output "default", and
init_output_from_device names it after the device, substituting
"Unknown device" exactly when the device name query fails. -/
theorem init_output_names (td : Except StreamError (OutputStream × OutputStreamHandle))
    (d : Device) :
    (∀ stream out, init_output td = Except.ok (stream, out) → out.name = "default") ∧
    (∀ stream out s, init_output_from_device d = Except.ok (stream, out) →
      d.name = Except.ok s → out.name = s) ∧
    (∀ stream out e, init_output_from_device d = Except.ok (stream, out) →
      d.name = Except.error e → out.name = "Unknown device") := by
  obtain ⟨tfd, dname⟩ := d
  refine ⟨?_, ?_, ?_⟩
  · intro stream out h
    cases td with
    | error e => simp [init_output] at h
    | ok p =>
      obtain ⟨st, sh⟩ := p
      simp [init_output] at h
      simp [← h.2]
  · intro stream out s h hname
    cases tfd with
    | error e => simp [init_output_from_device] at h
    | ok p =>
      obtain ⟨st, sh⟩ := p
      simp only [Device.name] at hname
      subst hname
      simp [init_output_from_device] at h
      simp [← h.2]
  · intro stream out e h hname
    cases tfd with
    | error e2 => simp [init_output_from_device] at h
    | ok p =>
      obtain ⟨st, sh⟩ := p
      simp only [Device.name] at hname
      subst hname
      simp [init_output_from_device] at h
      simp [← h.2]

/-- Witness for C10: a successful default init and a device whose name
query fails. -/
theorem init_output_names_witness :
    ({ name := "default", stream_handle := { id := 2 } } : Output).name = "default" ∧
    ({ name := "Unknown device", stream_handle := { id := 1 } } : Output).name =
      "Unknown device" :=
  ⟨(init_output_names sampleTryDefault sampleDeviceNameless).1
      { id := 0 } { name := "default", stream_handle := { id := 2 } } rfl,
    (init_output_names sampleTryDefault sampleDeviceNameless).2.2
      { id := 0 } { name := "Unknown device", stream_handle := { id := 1 } }
      { code := 0 } rfl rfl⟩
